import Mathlib

/-!
# Verification of `check_js.py`

A shallow embedding of the repository's single source file, a small static
checker for a JavaScript file.  Lines of text are modelled as `List Char`
(each line as produced by Python's `readlines`, i.e. keeping its trailing
newline character, if any); the whole file is a `List Char` of raw content.
Issue messages are modelled as the exact `String`s the Python code builds.
-/

namespace CheckJs

/-- The ASCII whitespace characters stripped by Python's `str.strip()` /
`str.rstrip()` with no argument (the model is restricted to the ASCII
whitespace characters; the checker's inputs are ASCII source text). -/
def pyIsSpace (c : Char) : Bool :=
  c == ' ' || c == '\t' || c == '\n' || c == '\r' || c == '\x0b' || c == '\x0c'

/-- Python's `str.rstrip` family: remove the longest suffix of characters
satisfying `p`. -/
def rstripBy (p : Char → Bool) (l : List Char) : List Char :=
  (l.reverse.dropWhile p).reverse

/-- Python's `line.strip()`: remove leading and trailing whitespace. -/
def pyStrip (l : List Char) : List Char :=
  rstripBy pyIsSpace (l.dropWhile pyIsSpace)

/-- Python's substring test `needle in hay` (`str.__contains__`). -/
def containsSub (needle : List Char) : List Char → Bool
  | [] => needle.isEmpty
  | c :: rest => needle.isPrefixOf (c :: rest) || containsSub needle rest

/-- The message appended for a `console.log(` occurrence
(`f"Line {i}: Found console.log - should use debugLog"`). -/
def logMsg (i : Nat) : String :=
  "Line " ++ toString i ++ ": Found console.log - should use debugLog"

/-- The message appended for a loose-equality occurrence
(`f"Line {i}: Found == - consider using ==="`). -/
def looseMsg (i : Nat) : String :=
  "Line " ++ toString i ++ ": Found == - consider using ==="

/-- The message appended for trailing whitespace
(`f"Line {i}: Trailing whitespace"`). -/
def trailMsg (i : Nat) : String :=
  "Line " ++ toString i ++ ": Trailing whitespace"

/-- The synthetic brace-imbalance message
(`f"Unbalanced braces: {open_braces} extra {...} braces"`). -/
def braceMsg (n : Int) : String :=
  let dir := if n > 0 then "opening" else "closing"
  "Unbalanced braces: " ++ toString n ++ " extra " ++ dir ++ " braces"

/-- Whether the regular expression `[^=!<>]==[^=]` matches at the head of
`l`: a character outside `=!<>`, then `==`, then a character other than
`=`. -/
def patHere (l : List Char) : Bool :=
  match l with
  | a :: b :: c :: d :: _ =>
    !(a == '=' || a == '!' || a == '<' || a == '>') && b == '=' && c == '=' && !(d == '=')
  | _ => false

/-- Python's `re.search(r'[^=!<>]==[^=]', line)` viewed as a Boolean: the
pattern is four single-character classes, so a match exists iff it matches
at some start position. -/
def looseEqMatch : List Char → Bool
  | [] => false
  | a :: rest => patHere (a :: rest) || looseEqMatch rest

/-- The issues the per-line loop of `check_javascript` appends for the line
`line` carrying 1-based number `i`, in the source's order: the
`console.log(` rule, then the loose-equality rule (skipped when the
stripped line starts with `//`), then the trailing-whitespace rule. -/
def lineIssues (i : Nat) (line : List Char) : List String :=
  (if containsSub "console.log(".data line && !(containsSub "debugLog".data line)
    then [logMsg i] else []) ++
  (if !("//".data.isPrefixOf (pyStrip line)) && looseEqMatch line
    then [looseMsg i] else []) ++
  (if rstripBy pyIsSpace line = rstripBy (fun c => c == '\n') line
    then [] else [trailMsg i])

/-- The per-line loop `for i, line in enumerate(lines, 1): ...`, collecting
the appended issues in order. -/
def scanLines : Nat → List (List Char) → List String
  | _, [] => []
  | i, l :: rest => lineIssues i l ++ scanLines (i + 1) rest

/-- Model of `re.sub(r'//.*$', '', line)` on a `readlines` line (at most
one `\n`, necessarily final): everything from the first `//` on is
removed, except that `$` leaves a final newline in place. -/
def cutLineComment : List Char → List Char
  | '/' :: '/' :: rest => if rest.getLast? == some '\n' then ['\n'] else []
  | c :: rest => c :: cutLineComment rest
  | [] => []

/-- Scan for the closing `*/` of a block comment; on success return the
suffix after it.  `none` means no `*/` occurs anywhere in `l`. -/
def dropThroughClose : List Char → Option (List Char)
  | '*' :: '/' :: rest => some rest
  | _ :: rest => dropThroughClose rest
  | [] => none

/-- One fuel-indexed step list for `re.sub(r'/\x2a.\x2a?\x2a/', '', line)`:
at each position, a `/*` with a later `*/` is removed through that first
`*/`, otherwise the character is kept.  When no `*/` exists in the rest of
the line no further match is possible and the rest is returned unchanged.
Each recursive call consumes at least one character, so fuel `l.length`
suffices; the fuel only makes the recursion structural. -/
def rbcFuel : Nat → List Char → List Char
  | 0, l => l
  | fuel + 1, '/' :: '*' :: rest =>
    match dropThroughClose rest with
    | some rest₂ => rbcFuel fuel rest₂
    | none => '/' :: '*' :: rest
  | fuel + 1, c :: rest => c :: rbcFuel fuel rest
  | _ + 1, [] => []

/-- Model of `re.sub(r'/\x2a.\x2a?\x2a/', '', line)`: remove the
line-local block comments, leftmost first, each ending at the nearest
`*/`. -/
def removeBlockComments (l : List Char) : List Char :=
  rbcFuel l.length l

/-- The comment cleaning applied to each line before brace counting. -/
def cleanLine (l : List Char) : List Char :=
  removeBlockComments (cutLineComment l)

/-- The running brace counter:
`open_braces += clean_line.count('{'); open_braces -= clean_line.count('}')`
folded over all lines, starting from `0`. -/
def braceDelta (lines : List (List Char)) : Int :=
  lines.foldl
    (fun acc l => acc + ((cleanLine l).count '{' : Int) - ((cleanLine l).count '}' : Int)) 0

/-- The final `if open_braces != 0` issue of `check_javascript`. -/
def braceIssue (lines : List (List Char)) : List String :=
  if braceDelta lines = 0 then [] else [braceMsg (braceDelta lines)]

/-- The function `check_javascript`, given the list of lines returned by
`f.readlines()`: the per-line issues in line order, then the synthetic
brace issue, if any. -/
def check_javascript (lines : List (List Char)) : List String :=
  scanLines 1 lines ++ braceIssue lines

/-- Python's `f.readlines()`: split the raw content after each newline,
keeping the newline characters; a final fragment without a newline is kept
as a last line. `acc` holds the current line, reversed. -/
def readlinesAux : List Char → List Char → List (List Char)
  | [], acc => if acc.isEmpty then [] else [acc.reverse]
  | '\n' :: rest, acc => (acc.reverse ++ ['\n']) :: readlinesAux rest []
  | c :: rest, acc => readlinesAux rest (c :: acc)

/-- Python's `f.readlines()` on the whole file content. -/
def pyReadlines (content : List Char) : List (List Char) :=
  readlinesAux content []

/-- Observable outcome of one process run: the lines printed to standard
output, the process exit status, and whether the run died from an uncaught
exception (traceback on standard error). -/
structure RunResult where
  stdout : List String
  exitCode : Nat
  crashed : Bool
deriving DecidableEq

/-- The `if issues:` reporting block of the `__main__` section: header with
the issue count, the first 20 issues each indented on its own line, an
`... and N more issues` line when more than 20 exist, exit status 1;
otherwise the success message and exit status 0. -/
def report (issues : List String) : List String × Nat :=
  if issues.isEmpty then
    (["No major issues found!"], 0)
  else
    (("Found " ++ toString issues.length ++ " issues:") ::
      ((issues.take 20).map (fun s => "  " ++ s) ++
        (if 20 < issues.length
          then ["  ... and " ++ toString (issues.length - 20) ++ " more issues"]
          else [])),
      1)

/-- One run of the program on the target file.  `none` models a file that
cannot be opened or read: `open` raises, nothing has been printed to
standard output, and (modelled from the spec: the exception "propagates as
a fatal error terminating the process with a non-zero status", which for an
uncaught CPython exception is exit status 1) the process dies with status 1.
With `some content` the file is read whole, `check_javascript` runs on its
lines, and the report is printed. -/
def runChecker : Option (List Char) → RunResult
  | none => ⟨[], 1, true⟩
  | some content =>
    let issues := check_javascript (pyReadlines content)
    ⟨(report issues).1, (report issues).2, false⟩

/-- The per-line total of `{` characters after comment cleaning. -/
def totalOpens (lines : List (List Char)) : Nat :=
  (lines.map fun l => (cleanLine l).count '{').sum

/-- The per-line total of `}` characters after comment cleaning. -/
def totalCloses (lines : List (List Char)) : Nat :=
  (lines.map fun l => (cleanLine l).count '}').sum

/-- Follows the claim's words for C1: the part of a line before (outside
of) its single-line `//` comment, with no block-comment handling. -/
def specBeforeLineComment : List Char → List Char
  | '/' :: '/' :: _ => []
  | c :: rest => c :: specBeforeLineComment rest
  | [] => []

/-- Follows the claim's words for C1: the number of occurrences of `ch`
outside of single-line comments, summed over the file's lines. -/
def specCountOutsideLineComments (ch : Char) (lines : List (List Char)) : Nat :=
  (lines.map fun l => (specBeforeLineComment l).count ch).sum

/-- Follows the claim's words for C2: the line contains an occurrence of
two consecutive `=` characters that is not immediately preceded by `=`,
`!`, `<`, or `>` (in particular, vacuously so when nothing precedes it)
and not immediately followed by `=` (vacuously so when nothing follows). -/
def specLooseOccur (l : List Char) : Prop :=
  ∃ i, l[i]? = some '=' ∧ l[i + 1]? = some '=' ∧
    (∀ j c, i = j + 1 → l[j]? = some c → (c ≠ '=' ∧ c ≠ '!' ∧ c ≠ '<' ∧ c ≠ '>')) ∧
    (∀ c, l[i + 2]? = some c → c ≠ '=')

/-! ## Helper lemmas -/

theorem append_msg_ne (i : Nat) {s t : String} (h : s.data ≠ t.data) :
    ("Line " ++ toString i ++ s) ≠ ("Line " ++ toString i ++ t) := by
  intro heq
  apply h
  have h2 := congrArg String.data heq
  simp only [String.data_append, List.append_assoc] at h2
  exact List.append_cancel_left (List.append_cancel_left h2)

theorem logMsg_ne_looseMsg (i : Nat) : logMsg i ≠ looseMsg i := by
  unfold logMsg looseMsg
  exact append_msg_ne i (by decide)

theorem logMsg_ne_trailMsg (i : Nat) : logMsg i ≠ trailMsg i := by
  unfold logMsg trailMsg
  exact append_msg_ne i (by decide)

theorem looseMsg_ne_trailMsg (i : Nat) : looseMsg i ≠ trailMsg i := by
  unfold looseMsg trailMsg
  exact append_msg_ne i (by decide)

/-- Python's `needle in hay` agrees with the mathematical substring
relation. -/
theorem containsSub_iff (needle hay : List Char) :
    containsSub needle hay = true ↔ needle <:+: hay := by
  induction hay with
  | nil => simp [containsSub, List.isEmpty_iff]
  | cons c rest ih =>
    simp [containsSub, Bool.or_eq_true, List.isPrefixOf_iff_prefix, ih,
      List.infix_cons_iff]

/-- Membership in the three-segment list a line's rule evaluation builds. -/
theorem mem_parts {α : Type} [DecidableEq α] (a u v w : α) (A B C : Prop)
    [Decidable A] [Decidable B] [Decidable C] :
    (a ∈ (if A then [u] else []) ++ (if B then [v] else []) ++ (if C then [] else [w])) ↔
      ((A ∧ a = u) ∨ (B ∧ a = v) ∨ (¬ C ∧ a = w)) := by
  by_cases hA : A <;> by_cases hB : B <;> by_cases hC : C <;> simp [hA, hB, hC]

/-- Membership of the logging message in a line's issues, characterised by
the two substring conditions of the source. -/
theorem logMsg_mem_iff (i : Nat) (l : List Char) :
    logMsg i ∈ lineIssues i l ↔
      (containsSub "console.log(".data l = true ∧ containsSub "debugLog".data l = false) := by
  unfold lineIssues
  rw [mem_parts]
  simp [logMsg_ne_looseMsg i, logMsg_ne_trailMsg i, Bool.and_eq_true, Bool.not_eq_true']

/-- Membership of the loose-equality message in a line's issues. -/
theorem looseMsg_mem_iff (i : Nat) (l : List Char) :
    looseMsg i ∈ lineIssues i l ↔
      ("//".data.isPrefixOf (pyStrip l) = false ∧ looseEqMatch l = true) := by
  unfold lineIssues
  rw [mem_parts]
  simp [(logMsg_ne_looseMsg i).symm, looseMsg_ne_trailMsg i, Bool.and_eq_true,
    Bool.not_eq_true']

/-- Membership of the trailing-whitespace message in a line's issues. -/
theorem trailMsg_mem_iff (i : Nat) (l : List Char) :
    trailMsg i ∈ lineIssues i l ↔
      rstripBy pyIsSpace l ≠ rstripBy (fun c => c == '\n') l := by
  unfold lineIssues
  rw [mem_parts]
  simp [(logMsg_ne_trailMsg i).symm, (looseMsg_ne_trailMsg i).symm]

/-- How often the trailing-whitespace message occurs among a line's
issues: once when the rule fires, never otherwise. -/
theorem trailMsg_count (i : Nat) (l : List Char) :
    (lineIssues i l).count (trailMsg i) =
      if rstripBy pyIsSpace l = rstripBy (fun c => c == '\n') l then 0 else 1 := by
  unfold lineIssues
  by_cases hA :
      (containsSub "console.log(".data l && !containsSub "debugLog".data l) = true <;>
    by_cases hB : ((!("//".data.isPrefixOf (pyStrip l))) && looseEqMatch l) = true <;>
    by_cases hC : rstripBy pyIsSpace l = rstripBy (fun c => c == '\n') l <;>
    simp [hA, hB, hC, List.count_cons, List.count_append,
      (logMsg_ne_trailMsg i).symm, (looseMsg_ne_trailMsg i).symm]

/-- The head-anchored pattern `[^=!<>]==[^=]`, characterised. -/
theorem patHere_iff (l : List Char) :
    patHere l = true ↔
      ∃ c0 c3 suf, l = c0 :: '=' :: '=' :: c3 :: suf ∧
        c0 ≠ '=' ∧ c0 ≠ '!' ∧ c0 ≠ '<' ∧ c0 ≠ '>' ∧ c3 ≠ '=' := by
  match l with
  | [] => simp [patHere]
  | [a] => simp [patHere]
  | [a, b] => simp [patHere]
  | [a, b, c] => simp [patHere]
  | a :: b :: c :: d :: rest =>
    simp only [patHere, Bool.and_eq_true, Bool.not_eq_true', Bool.or_eq_false_iff,
      beq_iff_eq, beq_eq_false_iff_ne, and_assoc]
    constructor
    · rintro ⟨h1, h2, h3, h4, h5, h6, h7⟩
      subst h5 h6
      exact ⟨a, d, rest, rfl, h1, h2, h3, h4, h7⟩
    · rintro ⟨c0, c3, suf, heq, h1, h2, h3, h4, h7⟩
      simp only [List.cons.injEq] at heq
      obtain ⟨ha, hb, hc, hd, hsuf⟩ := heq
      subst ha hb hc hd hsuf
      exact ⟨h1, h2, h3, h4, rfl, rfl, h7⟩

/-- The search `re.search(r'[^=!<>]==[^=]', line)` succeeds exactly when
the line splits around an `==` whose preceding character is outside `=!<>`
and whose following character is not `=`. -/
theorem looseEqMatch_iff (l : List Char) :
    looseEqMatch l = true ↔
      ∃ pre c0 c3 suf, l = pre ++ c0 :: '=' :: '=' :: c3 :: suf ∧
        c0 ≠ '=' ∧ c0 ≠ '!' ∧ c0 ≠ '<' ∧ c0 ≠ '>' ∧ c3 ≠ '=' := by
  induction l with
  | nil =>
    constructor
    · intro h; simp [looseEqMatch] at h
    · rintro ⟨pre, c0, c3, suf, h, -⟩
      exact absurd (congrArg List.length h) (by simp; omega)
  | cons a rest ih =>
    simp only [looseEqMatch, Bool.or_eq_true, patHere_iff, ih]
    constructor
    · rintro (⟨c0, c3, suf, h, hc⟩ | ⟨pre, c0, c3, suf, h, hc⟩)
      · exact ⟨[], c0, c3, suf, h, hc⟩
      · exact ⟨a :: pre, c0, c3, suf, by simp [h], hc⟩
    · rintro ⟨pre, c0, c3, suf, h, hc⟩
      match pre, h with
      | [], h =>
        exact Or.inl ⟨c0, c3, suf, h, hc⟩
      | p :: pre, h =>
        simp only [List.cons_append, List.cons.injEq] at h
        exact Or.inr ⟨pre, c0, c3, suf, h.2, hc⟩

/-- The per-line loop visits every line, in order, pairing line `k` of the
file with 1-based index `k`. -/
theorem scanLines_eq (ls : List (List Char)) :
    ∀ i, scanLines i ls = ((List.enumFrom i ls).map fun p => lineIssues p.1 p.2).flatten := by
  induction ls with
  | nil => intro i; simp [scanLines]
  | cons l rest ih => intro i; simp [scanLines, List.enumFrom, ih]

/-- The brace counter of the source's fold equals total opens minus total
closes over the cleaned lines. -/
theorem braceDelta_eq (lines : List (List Char)) :
    braceDelta lines = (totalOpens lines : Int) - (totalCloses lines : Int) := by
  have main : ∀ (ls : List (List Char)) (acc : Int),
      ls.foldl
        (fun acc l =>
          acc + ((cleanLine l).count '{' : Int) - ((cleanLine l).count '}' : Int)) acc =
        acc + ((totalOpens ls : Int) - (totalCloses ls : Int)) := by
    intro ls
    induction ls with
    | nil => intro acc; simp [totalOpens, totalCloses]
    | cons l rest ih =>
      intro acc
      simp only [List.foldl_cons, ih, totalOpens, totalCloses, List.map_cons, List.sum_cons]
      push_cast
      ring
  simpa using main lines 0

/-- Stripping can only shorten a list. -/
theorem rstripBy_length_le (p : Char → Bool) (l : List Char) :
    (rstripBy p l).length ≤ l.length := by
  have h : List.Sublist (l.reverse.dropWhile p) l.reverse := List.dropWhile_sublist p
  simpa [rstripBy] using h.length_le

/-- Appending a suffix made only of stripped characters does not change the
result of stripping. -/
theorem rstripBy_append (p : Char → Bool) (xs ys : List Char)
    (h : ∀ c ∈ ys, p c = true) :
    rstripBy p (xs ++ ys) = rstripBy p xs := by
  unfold rstripBy
  rw [List.reverse_append, List.dropWhile_append]
  have hnil : ys.reverse.dropWhile p = [] := by
    rw [List.dropWhile_eq_nil_iff]
    intro x hx
    exact h x (List.mem_reverse.mp hx)
  simp [hnil]

/-- A list whose last character is not stripped is left unchanged. -/
theorem rstripBy_eq_self (p : Char → Bool) (l : List Char)
    (h : ∀ c, l.getLast? = some c → p c = false) :
    rstripBy p l = l := by
  unfold rstripBy
  match hrev : l.reverse with
  | [] => simpa using congrArg List.reverse hrev
  | c :: rest =>
    have hc : p c = false := by
      apply h
      rw [← List.head?_reverse, hrev]
      rfl
    rw [List.dropWhile_cons_of_neg (by simp [hc]), ← hrev, List.reverse_reverse]

/-- Every list splits as its stripped core followed by a stripped-character
suffix. -/
theorem rstripBy_decomp (p : Char → Bool) (l : List Char) :
    ∃ s, l = rstripBy p l ++ s ∧ ∀ c ∈ s, p c = true := by
  refine ⟨(l.reverse.takeWhile p).reverse, ?_, ?_⟩
  · have h3 := congrArg List.reverse (List.takeWhile_append_dropWhile p l.reverse)
    simp only [List.reverse_append, List.reverse_reverse] at h3
    simpa [rstripBy] using h3.symm
  · intro c hc
    exact List.mem_takeWhile_imp (List.mem_reverse.mp hc)

/-- Stripping trailing newlines from a line of the form `xs ++ [c, newline]`
with `c` itself not a newline yields `xs ++ [c]`. -/
theorem rstripNl_append (xs : List Char) (c : Char) (h : (c == '\n') = false) :
    rstripBy (fun c => c == '\n') (xs ++ [c, '\n']) = xs ++ [c] := by
  unfold rstripBy
  rw [List.reverse_append]
  simp only [List.reverse_cons, List.reverse_nil, List.nil_append, List.cons_append,
    List.append_nil]
  rw [List.dropWhile_cons_of_pos (by simp), List.dropWhile_cons_of_neg (by simp [h])]
  simp

/-! ## Claims -/

/-- C5: for every line, a logging-call issue carrying the line's 1-based
number is produced exactly when the line contains the substring
`console.log(` and does not contain the substring `debugLog`, with matching
by pure substring containment. -/
theorem c5_console_log_rule (i : Nat) (l : List Char) :
    logMsg i ∈ lineIssues i l ↔
      ("console.log(".data <:+: l ∧ ¬ ("debugLog".data <:+: l)) := by
  rw [logMsg_mem_iff]
  constructor
  · rintro ⟨h1, h2⟩
    refine ⟨(containsSub_iff _ _).mp h1, fun hc => ?_⟩
    rw [(containsSub_iff _ _).mpr hc] at h2
    cases h2
  · rintro ⟨h1, h2⟩
    refine ⟨(containsSub_iff _ _).mpr h1, ?_⟩
    rcases hb : containsSub "debugLog".data l with _ | _
    · rfl
    · exact absurd ((containsSub_iff _ _).mp hb) h2

/-- C2 (amended): the loose-equality rule is skipped for lines whose
stripped content starts with `//`; otherwise it fires exactly when the line
contains an occurrence of `==` immediately preceded by a character other
than `=`, `!`, `<`, `>` and immediately followed by a character other than
`=` (both neighbouring characters must exist).  `a == b` is flagged;
`a === b`, `a <= b`, `a >= b`, `a != b` are not. -/
theorem c2_loose_equality_amended :
    (∀ (i : Nat) (l : List Char),
      looseMsg i ∈ lineIssues i l ↔
        (¬ ("//".data <+: pyStrip l) ∧
          ∃ pre c0 c3 suf, l = pre ++ c0 :: '=' :: '=' :: c3 :: suf ∧
            c0 ≠ '=' ∧ c0 ≠ '!' ∧ c0 ≠ '<' ∧ c0 ≠ '>' ∧ c3 ≠ '=')) ∧
    looseMsg 1 ∈ lineIssues 1 ("a == b\n".data) ∧
    looseMsg 1 ∉ lineIssues 1 ("a === b\n".data) ∧
    looseMsg 1 ∉ lineIssues 1 ("a <= b\n".data) ∧
    looseMsg 1 ∉ lineIssues 1 ("a >= b\n".data) ∧
    looseMsg 1 ∉ lineIssues 1 ("a != b\n".data) := by
  refine ⟨?_, by decide, by decide, by decide, by decide, by decide⟩
  intro i l
  rw [looseMsg_mem_iff, looseEqMatch_iff]
  simp only [Bool.eq_false_iff, Ne, List.isPrefixOf_iff_prefix]

/-- C2 is refuted as stated: on the line `== b`, the `==` occurrence at the
start of the line is not immediately preceded by `=`, `!`, `<`, or `>`
(nothing precedes it) and not immediately followed by `=`, so the claim
predicts an issue, but the rule produces none. -/
theorem c2_counterexample :
    specLooseOccur ("== b\n".data) ∧
    ¬ ("//".data <+: pyStrip ("== b\n".data)) ∧
    lineIssues 1 ("== b\n".data) = [] := by
  refine ⟨⟨0, by decide, by decide, ?_, ?_⟩, ?_, by decide⟩
  · intro j c h hc
    exact absurd h (by omega)
  · intro c hc
    rw [show (("== b\n".data)[0 + 2]?) = some ' ' from rfl] at hc
    cases hc
    decide
  · decide

/-- C9: the loose-equality rule only fires when the `==` has at least one
character before it and one after it on the same line; occurrences touching
either end of the line's text are never flagged. -/
theorem c9_boundary_loose_eq :
    (∀ (i : Nat) (l : List Char), looseMsg i ∈ lineIssues i l →
      ∃ pre c0 c3 suf, l = pre ++ c0 :: '=' :: '=' :: c3 :: suf) ∧
    looseMsg 1 ∉ lineIssues 1 ("== b".data) ∧
    looseMsg 1 ∉ lineIssues 1 ("a ==".data) := by
  refine ⟨?_, by decide, by decide⟩
  intro i l h
  obtain ⟨-, hm⟩ := (looseMsg_mem_iff i l).mp h
  obtain ⟨pre, c0, c3, suf, heq, -⟩ := (looseEqMatch_iff l).mp hm
  exact ⟨pre, c0, c3, suf, heq⟩

/-- Witness for C9 at the concrete flagged line `a == b`. -/
theorem c9_boundary_loose_eq_witness :
    ∃ pre c0 c3 suf, "a == b\n".data = pre ++ c0 :: '=' :: '=' :: c3 :: suf :=
  c9_boundary_loose_eq.1 1 ("a == b\n".data) (by decide)

/-- C6: a line ending in one or more spaces/tabs before its newline gets
exactly one trailing-whitespace issue; a line with no trailing whitespace
gets none; and in general the rule fires exactly when stripping trailing
whitespace differs from stripping only trailing newlines. -/
theorem c6_trailing_whitespace (i : Nat) (l : List Char) :
    ((∃ xs c, (c = ' ' ∨ c = '\t') ∧ l = xs ++ [c, '\n']) →
      (lineIssues i l).count (trailMsg i) = 1) ∧
    ((∀ c, (rstripBy (fun c => c == '\n') l).getLast? = some c → pyIsSpace c = false) →
      (lineIssues i l).count (trailMsg i) = 0) ∧
    (trailMsg i ∈ lineIssues i l ↔
      rstripBy pyIsSpace l ≠ rstripBy (fun c => c == '\n') l) := by
  refine ⟨?_, ?_, trailMsg_mem_iff i l⟩
  · rintro ⟨xs, c, hc, rfl⟩
    rw [trailMsg_count, if_neg]
    intro heq
    have h1 : rstripBy (fun c => c == '\n') (xs ++ [c, '\n']) = xs ++ [c] :=
      rstripNl_append xs c (by rcases hc with rfl | rfl <;> decide)
    have h2 : rstripBy pyIsSpace (xs ++ [c, '\n']) = rstripBy pyIsSpace xs := by
      apply rstripBy_append
      intro d hd
      simp only [List.mem_cons, List.mem_singleton] at hd
      rcases hd with rfl | rfl | h
      · rcases hc with rfl | rfl <;> decide
      · decide
      · cases h
    have hlen := congrArg List.length heq
    rw [h1, h2] at hlen
    have hle := rstripBy_length_le pyIsSpace xs
    simp only [List.length_append, List.length_singleton] at hlen
    omega
  · intro h
    rw [trailMsg_count, if_pos]
    obtain ⟨s, hdecomp, hs⟩ := rstripBy_decomp (fun c => c == '\n') l
    have hws : rstripBy pyIsSpace l =
        rstripBy pyIsSpace (rstripBy (fun c => c == '\n') l) := by
      conv_lhs => rw [hdecomp]
      apply rstripBy_append
      intro c hc
      have hnl : c = '\n' := by simpa using hs c hc
      subst hnl
      decide
    rw [hws, rstripBy_eq_self pyIsSpace _ h]

/-- Witness for C6 at the concrete line `x ` followed by a newline. -/
theorem c6_trailing_whitespace_witness :
    (lineIssues 1 ("x \n".data)).count (trailMsg 1) = 1 :=
  (c6_trailing_whitespace 1 ("x \n".data)).1 ⟨['x'], ' ', Or.inl rfl, by decide⟩

/-- C10: a line ending in a carriage return before its newline (CRLF) and
with no trailing spaces or tabs still gets a trailing-whitespace issue,
because `rstrip()` strips every whitespace character, not only space and
tab. -/
theorem c10_crlf_trailing (i : Nat) (xs : List Char)
    (_h : ∀ c, xs.getLast? = some c → (c ≠ ' ' ∧ c ≠ '\t')) :
    (lineIssues i (xs ++ ['\r', '\n'])).count (trailMsg i) = 1 := by
  rw [trailMsg_count, if_neg]
  intro heq
  have h1 : rstripBy (fun c => c == '\n') (xs ++ ['\r', '\n']) = xs ++ ['\r'] :=
    rstripNl_append xs '\r' (by decide)
  have h2 : rstripBy pyIsSpace (xs ++ ['\r', '\n']) = rstripBy pyIsSpace xs := by
    apply rstripBy_append
    intro d hd
    simp only [List.mem_cons, List.mem_singleton] at hd
    rcases hd with rfl | rfl | h
    · decide
    · decide
    · cases h
  have hlen := congrArg List.length heq
  rw [h1, h2] at hlen
  have hle := rstripBy_length_le pyIsSpace xs
  simp only [List.length_append, List.length_singleton] at hlen
  omega

/-- Witness for C10 at the concrete line consisting of `\r\n` alone. -/
theorem c10_crlf_trailing_witness :
    (lineIssues 1 ['\r', '\n']).count (trailMsg 1) = 1 :=
  c10_crlf_trailing 1 [] (fun _ hc => nomatch hc)

/-- C1 (amended): when the `{` and `}` totals over the comment-cleaned
lines (single-line comments and line-local block comments removed) are
equal, no brace-balance issue is emitted; when there is exactly one extra
`{` so counted, exactly one synthetic issue is appended after all per-line
issues, stating one extra opening brace and carrying no line number. -/
theorem c1_brace_balance_amended (lines : List (List Char)) :
    (totalOpens lines = totalCloses lines →
      check_javascript lines = scanLines 1 lines) ∧
    (totalOpens lines = totalCloses lines + 1 →
      check_javascript lines =
        scanLines 1 lines ++ ["Unbalanced braces: 1 extra opening braces"]) := by
  constructor
  · intro h
    have hd : braceDelta lines = 0 := by rw [braceDelta_eq, h, sub_self]
    simp [check_javascript, braceIssue, hd]
  · intro h
    have hd : braceDelta lines = 1 := by rw [braceDelta_eq, h]; push_cast; ring
    have hb : braceIssue lines = ["Unbalanced braces: 1 extra opening braces"] := by
      rw [braceIssue, hd]
      rfl
    rw [check_javascript, hb]

/-- Witness for C1 (amended): a balanced file and a one-extra-open file. -/
theorem c1_brace_balance_amended_witness :
    check_javascript [("\x7b\x7d".data)] = scanLines 1 [("\x7b\x7d".data)] ∧
    check_javascript [("\x7b".data)] =
      scanLines 1 [("\x7b".data)] ++ ["Unbalanced braces: 1 extra opening braces"] :=
  ⟨(c1_brace_balance_amended [("\x7b\x7d".data)]).1 (by decide),
    (c1_brace_balance_amended [("\x7b".data)]).2 (by decide)⟩

/-- C1 is refuted as stated: in the file consisting of the single line
`/* } */ {`, the counts of `{` and `}` outside of single-line (`//`)
comments are equal, yet the scan emits a brace-balance issue, because the
code also removes line-local `/* ... */` block comments before counting. -/
theorem c1_counterexample :
    specCountOutsideLineComments '{' [("/* \x7d */ \x7b\n".data)] =
      specCountOutsideLineComments '}' [("/* \x7d */ \x7b\n".data)] ∧
    check_javascript [("/* \x7d */ \x7b\n".data)] =
      ["Unbalanced braces: 1 extra opening braces"] :=
  ⟨by decide, by decide⟩

/-- C3: the exit status is always 0 or 1, and on a readable file it is 0
exactly when the scan found no issues. -/
theorem c3_exit_status (file : Option (List Char)) :
    ((runChecker file).exitCode = 0 ∨ (runChecker file).exitCode = 1) ∧
    (∀ content, file = some content →
      ((runChecker file).exitCode = 0 ↔
        check_javascript (pyReadlines content) = [])) := by
  cases file with
  | none => exact ⟨Or.inr rfl, fun content h => nomatch h⟩
  | some content =>
    have hrep : ∀ issues : List String,
        (report issues).2 = if issues.isEmpty then 0 else 1 := by
      intro issues
      unfold report
      split <;> rfl
    have hrun : (runChecker (some content)).exitCode =
        (report (check_javascript (pyReadlines content))).2 := rfl
    constructor
    · rw [hrun, hrep]
      split
      · exact Or.inl rfl
      · exact Or.inr rfl
    · intro c hc
      cases hc
      rw [hrun, hrep]
      split
      · next h => simp_all [List.isEmpty_iff]
      · next h => simp_all [List.isEmpty_iff]

/-- Witness for C3 on the empty (readable) file. -/
theorem c3_exit_status_witness :
    (runChecker (some [])).exitCode = 0 ↔ check_javascript (pyReadlines []) = [] :=
  (c3_exit_status (some [])).2 [] rfl

/-- C4: an empty issue sequence prints exactly the success message and
exits 0; a non-empty one prints a count header, then the first at-most-20
issues in order each on its own line, then an `... and N more issues` line
exactly when more than 20 exist (with N the count minus 20), and exits 1. -/
theorem c4_report_format (content : List Char) :
    (check_javascript (pyReadlines content) = [] →
      runChecker (some content) = ⟨["No major issues found!"], 0, false⟩) ∧
    (check_javascript (pyReadlines content) ≠ [] →
      (runChecker (some content)).exitCode = 1 ∧
      (runChecker (some content)).stdout =
        ("Found " ++ toString (check_javascript (pyReadlines content)).length ++
            " issues:") ::
          (((check_javascript (pyReadlines content)).take 20).map
              (fun s => "  " ++ s) ++
            (if 20 < (check_javascript (pyReadlines content)).length
              then ["  ... and " ++
                  toString ((check_javascript (pyReadlines content)).length - 20) ++
                  " more issues"]
              else []))) := by
  constructor
  · intro h
    simp only [runChecker]
    rw [h]
    rfl
  · intro h
    have hne : (check_javascript (pyReadlines content)).isEmpty = false := by
      simpa [List.isEmpty_iff] using h
    constructor <;> simp [runChecker, report, hne]

set_option maxRecDepth 8192 in
/-- Witness for C4: a file of 25 logging lines yields a header reporting
25 issues, 22 printed lines in total, the last reading
`  ... and 5 more issues`, and exit status 1. -/
theorem c4_report_format_witness :
    (runChecker (some (String.join (List.replicate 25 "console.log(1)\n")).data)).exitCode
        = 1 ∧
    (runChecker
          (some (String.join (List.replicate 25 "console.log(1)\n")).data)).stdout.head?
        = some "Found 25 issues:" ∧
    (runChecker
          (some (String.join (List.replicate 25 "console.log(1)\n")).data)).stdout.length
        = 22 ∧
    (runChecker
          (some (String.join (List.replicate 25 "console.log(1)\n")).data)).stdout.getLast?
        = some "  ... and 5 more issues" := by
  have h :=
    (c4_report_format (String.join (List.replicate 25 "console.log(1)\n")).data).2
      (by decide)
  refine ⟨h.1, ?_, ?_, ?_⟩ <;> rw [h.2] <;> decide

/-- C7: an unreadable file crashes the run before any analysis, printing
nothing to standard output; a readable file is fully scanned, every line
contributing its issues in order, followed by the brace check. -/
theorem c7_no_partial_failure :
    ((runChecker none).crashed = true ∧ (runChecker none).stdout = [] ∧
      (runChecker none).exitCode = 1) ∧
    (∀ content, (runChecker (some content)).crashed = false ∧
      check_javascript (pyReadlines content) =
        ((List.enumFrom 1 (pyReadlines content)).map
            fun p => lineIssues p.1 p.2).flatten ++
          braceIssue (pyReadlines content)) := by
  refine ⟨⟨rfl, rfl, rfl⟩, fun content => ⟨rfl, ?_⟩⟩
  rw [show check_javascript (pyReadlines content) =
      scanLines 1 (pyReadlines content) ++ braceIssue (pyReadlines content) from rfl,
    scanLines_eq (pyReadlines content) 1]

/-- C8: the checker is a pure function of the file content; two runs on
the same content yield identical output and identical exit status. -/
theorem c8_deterministic (file : Option (List Char)) (r₁ r₂ : RunResult)
    (h₁ : r₁ = runChecker file) (h₂ : r₂ = runChecker file) :
    r₁.stdout = r₂.stdout ∧ r₁.exitCode = r₂.exitCode := by
  subst h₁ h₂
  exact ⟨rfl, rfl⟩

/-- Witness for C8 at a concrete one-line file. -/
theorem c8_deterministic_witness :
    (runChecker (some ['a', '\n'])).stdout = (runChecker (some ['a', '\n'])).stdout ∧
    (runChecker (some ['a', '\n'])).exitCode = (runChecker (some ['a', '\n'])).exitCode :=
  c8_deterministic (some ['a', '\n']) (runChecker (some ['a', '\n']))
    (runChecker (some ['a', '\n'])) rfl rfl

end CheckJs
